import Mathlib

/-!
Verification development for the yunohost config-panel resolution engine
(src/yunohost/utils/config.py): the schema loader, hydration pass, typed
question validation, the answer-resolution loop, and the get/set pipelines.

The embedding mirrors the Python source.  Python scalar values (str, int,
None) are modelled by the type Val; machine-level details that no claim
touches (TOML parsing, the interactive prompt, m18n text lookup, the
password strength service, file upload materialization) are external
collaborators and are modelled at their interface boundary only.
-/

deriving instance DecidableEq for Except

namespace YnhConfig

/-- Python scalar values as they occur in config-panel settings:
None, strings, and integers.  (Dict-valued settings entries, an
obscure overwrite feature of the hydration pass, are outside the scalar
model; no claim exercises them.) -/
inductive Val where
  | null : Val
  | str (s : String) : Val
  | int (n : Int) : Val
deriving DecidableEq, Repr

/-- ASCII whitespace stripped by Python str.strip(). -/
def isPySpace (c : Char) : Bool :=
  c = ' ' ∨ c = '\t' ∨ c = '\n' ∨ c = '\r' ∨ c = '\x0b' ∨ c = '\x0c'

/-- Python str.strip() on a character list. -/
def stripChars (cs : List Char) : List Char :=
  ((cs.dropWhile isPySpace).reverse.dropWhile isPySpace).reverse

/-- Python str.strip(). -/
def pyStrip (s : String) : String := String.mk (stripChars s.toList)

/-- Python str.lower() (ASCII case folding, which covers every string the
engine compares). -/
def pyLower (s : String) : String := String.mk (s.toList.map Char.toLower)

/-- Decimal digits of a natural number, most significant first.  The first
argument is recursion fuel, always called with fuel at least n+1. -/
def natToStrAux : Nat → Nat → List Char
  | 0, _ => []
  | fuel+1, n =>
    let d := Char.ofNat (48 + n % 10)
    if n < 10 then [d] else natToStrAux fuel (n / 10) ++ [d]

/-- Decimal rendering of a natural number. -/
def natToStr (n : Nat) : String := String.mk (natToStrAux (n + 1) n)

/-- Python str() of an integer. -/
def intToStr : Int → String
  | Int.ofNat n => natToStr n
  | Int.negSucc n => String.mk ('-' :: (natToStr (n + 1)).toList)

/-- Python str() of a scalar value. -/
def pyStr : Val → String
  | .null => "None"
  | .str s => s
  | .int n => intToStr n

/-- The shared Question.normalize base step: strings are stripped, other
values pass through (config.py lines 490-494). -/
def stripVal : Val → Val
  | .str s => .str (pyStrip s)
  | v => v

/-- Error taxonomy of the engine.  YunohostValidationError is a subclass of
YunohostError in the source; the two constructors keep the distinction.
assertionError models a failing Python assert; attributeError models
calling a method on None; interrupted models KeyboardInterrupt/EOFError;
exception models any other unexpected Exception. -/
inductive YErr where
  | yunohost (msg : String) : YErr
  | validation (msg : String) : YErr
  | assertionError : YErr
  | attributeError : YErr
  | interrupted : YErr
  | exception (msg : String) : YErr
deriving DecidableEq, Repr

/-- BooleanQuestion.yes_answers (config.py line 756). -/
def yesAnswersBase : List String := ["1", "yes", "y", "true", "t", "on"]

/-- BooleanQuestion.no_answers (config.py line 757). -/
def noAnswersBase : List String := ["0", "no", "n", "false", "f", "off"]

/-- BooleanQuestion.normalize (config.py lines 783-818): strip the input,
check the configured yes/no tokens do not collide with the opposite base
word list (Python assert), extend each word list with the lowered token,
and map the lowered input through the yes list, the no list, the
"none"/empty escape, and finally the choice error. -/
def booleanNormalize (value : Val) (yes no : Val) : Except YErr Val :=
  let value := stripVal value
  let ys := pyLower (pyStr yes)
  let ns := pyLower (pyStr no)
  if ys ∈ noAnswersBase then .error .assertionError
  else if ns ∈ yesAnswersBase then .error .assertionError
  else
    let strvalue := pyLower (pyStr value)
    if strvalue ∈ yesAnswersBase ++ [ys] then .ok yes
    else if strvalue ∈ noAnswersBase ++ [ns] then .ok no
    else if strvalue = "none" ∨ strvalue = "" then .ok .null
    else .error (.validation "app_argument_choice_invalid")

/-- The lowered, stripped form of a string input, as computed inside
BooleanQuestion.normalize. -/
def boolStrOf (s : String) : String := pyLower (pyStrip s)

end YnhConfig

namespace YnhConfig

/-- Lookup in a Python-dict modelled as an association list (first match;
the construction functions keep keys unique). -/
def dget (d : List (String × Val)) (k : String) : Option Val :=
  match d.find? (fun kv => decide (kv.1 = k)) with
  | some kv => some kv.2
  | none => none

/-- Python dict merge of a and b with b winning on collisions, keeping the
iteration order of the merged dict. -/
def dmerge (a b : List (String × Val)) : List (String × Val) :=
  a.map (fun kv => (kv.1, (dget b kv.1).getD kv.2))
    ++ b.filter (fun kv => (dget a kv.1).isNone)

/-- Split a character list at every occurrence of the separator, Python
str.split semantics (the empty list splits to one empty chunk). -/
def splitCharAux (c : Char) : List Char → List (List Char)
  | [] => [[]]
  | x :: xs =>
    let r := splitCharAux c xs
    if x = c then [] :: r
    else (x :: r.headD []) :: r.tail

/-- Python key.split of a filter key on dots. -/
def splitDots (s : String) : List String :=
  (splitCharAux '.' s.toList).map String.mk

/-- The segment list of a filter key: the source splits only when the key
is nonempty (config.py line 187). -/
def splitKey (key : String) : List String :=
  if key = "" then [] else splitDots key

/-- Python filter_key.count of the dot character. -/
def countDots (s : String) : Nat :=
  (s.toList.filter (fun c => decide (c = '.'))).length

/-- Python filter_key.split at dots, last element (config.py lines 73 and
142); the empty key yields the empty string. -/
def lastSeg (key : String) : String :=
  ((splitDots key).getLast?).getD ""

end YnhConfig

namespace YnhConfig

/-- Static option node of the internal schema tree, as built by
ConfigPanel._get_config_panel.  The loader stores the option key both as
id and as name (config.py line 292), so a single id field stands for
both.  Option properties one of the claims touches are kept; pattern,
numeric bounds and styling properties, which no claim exercises, are
outside the model. -/
structure Opt where
  id : String
  otype : String
  default : Option Val := none
  bind : Option String := none
  yesTok : Option Val := none
  noTok : Option Val := none
  choices : List Val := []
  optional : Bool := true
  redact : Bool := false
deriving DecidableEq, Repr

/-- Section node of the internal tree. -/
structure Sec where
  id : String
  services : List String := []
  options : List Opt := []
deriving DecidableEq, Repr

/-- Panel node of the internal tree. -/
structure Pan where
  id : String
  services : List String := []
  sections : List Sec := []
deriving DecidableEq, Repr

/-- The internal config tree (the panels list of the root node). -/
structure Cfg where
  panels : List Pan := []
deriving DecidableEq, Repr

/-- Raw option node of the TOML description, before default injection. -/
structure RawOption where
  id : String
  otype : String
  default : Option Val := none
  bind : Option String := none
  yesTok : Option Val := none
  noTok : Option Val := none
  choices : List Val := []
  optional : Option Bool := none
  redact : Bool := false
deriving DecidableEq, Repr

/-- Raw section node of the TOML description. -/
structure RawSection where
  id : String
  services : List String := []
  optional : Option Bool := none
  options : List RawOption := []
deriving DecidableEq, Repr

/-- Raw panel node of the TOML description. -/
structure RawPanel where
  id : String
  services : List String := []
  sections : List RawSection := []
deriving DecidableEq, Repr

/-- Raw TOML description: declared version plus the panel forest. -/
structure RawConfig where
  version : Rat
  panels : List RawPanel := []
deriving DecidableEq, Repr

/-- CONFIG_PANEL_VERSION_SUPPORTED (config.py line 47). -/
def configPanelVersionSupported : Rat := 1

/-- Filter-key pruning test: a child survives when no segment exists at
this depth, or the segment is the empty string (falsy in Python), or the
ids match (config.py lines 275 and 284-286). -/
def keepChild (seg : Option String) (id : String) : Bool :=
  match seg with
  | some s => s = "" || id = s
  | none => true

/-- Build an internal option: the effective optional flag is the option's
own declaration, else the surrounding raw section's, else True
(config.py line 293 together with the sections defaults table). -/
def buildOption (secOptional : Option Bool) (ro : RawOption) : Opt :=
  { id := ro.id, otype := ro.otype, default := ro.default, bind := ro.bind,
    yesTok := ro.yesTok, noTok := ro.noTok, choices := ro.choices,
    optional := ro.optional.getD (secOptional.getD true), redact := ro.redact }

/-- Build an internal section, pruning options by the third filter-key
segment. -/
def buildSection (segs : List String) (rs : RawSection) : Sec :=
  { id := rs.id, services := rs.services,
    options := (rs.options.filter (fun o => keepChild (segs.get? 2) o.id)).map
      (buildOption rs.optional) }

/-- Build an internal panel, pruning sections by the second filter-key
segment. -/
def buildPanel (segs : List String) (rp : RawPanel) : Pan :=
  { id := rp.id, services := rp.services,
    sections := (rp.sections.filter (fun s => keepChild (segs.get? 1) s.id)).map
      (buildSection segs) }

/-- The recursive tree walk of _build_internal_config_panel, restricted to
the structure the claims observe: prune by filter key at each level and
convert raw nodes to internal nodes. -/
def buildConfig (raw : RawConfig) (segs : List String) : Cfg :=
  { panels := (raw.panels.filter (fun p => keepChild (segs.get? 0) p.id)).map
      (buildPanel segs) }

/-- All options of the tree in panel, section, declaration order
(ConfigPanel._iterate with the option trigger). -/
def allOptions (cfg : Cfg) : List Opt :=
  (cfg.panels.map (fun p => (p.sections.map Sec.options).flatten)).flatten

/-- The reachability probe config.panels[0].sections[0].options[0]
(config.py lines 307-312). -/
def structureOk (cfg : Cfg) : Bool :=
  match cfg.panels with
  | [] => false
  | p :: _ =>
    match p.sections with
    | [] => false
    | s :: _ => !s.options.isEmpty

/-- The forbidden option-id keywords (config.py lines 315-333).  The
source extends the literal list with the keys of the sections format
descriptor, a Python dict whose keys are properties and defaults. -/
def forbiddenKeywords : List String :=
  ["old", "app", "changed", "file_hash", "binds", "types", "formats",
   "getter", "setter", "short_setting", "type", "bind", "nothing_changed",
   "changes_validated", "result", "max_progression",
   "properties", "defaults"]

/-- Observable events of one ConfigPanel operation, in emission order:
file reads and writes, the upload-dir cleanup, service reloads, and the
operation-logger calls. -/
inductive Event where
  | readConfigToml : Event
  | readSettings : Event
  | opLoggerStart : Event
  | writeSettings (vals : List (String × Val)) : Event
  | cleanUploadDirs (dirs : List String) : Event
  | reloadServices (svcs : List String) : Event
  | opLoggerSuccess : Event
  | opLoggerError : Event
deriving DecidableEq, Repr

/-- ConfigPanel._get_config_panel (config.py lines 184-338), with the trace
of I/O events it performs.  Steps in source order: reject a filter key of
more than 3 segments; return None when the description file is absent
(before any read); read the TOML; reject a version below the supported
one; build the filtered internal tree; reject an unreachable filter key;
reject an option id among the forbidden keywords.  No duplicate-id check
exists in the source. -/
def getConfigPanelT (raw : Option RawConfig) (key : String) :
    Except YErr (Option Cfg) × List Event :=
  let segs := splitKey key
  if segs.length > 3 then (.error (.yunohost "filter_key_too_deep"), [])
  else
    match raw with
    | none => (.ok none, [])
    | some rc =>
      if rc.version < configPanelVersionSupported then
        (.error (.yunohost "config_version_not_supported"), [.readConfigToml])
      else
        let cfg := buildConfig rc segs
        if !structureOk cfg then
          (.error (.validation "config_unknown_filter_key"), [.readConfigToml])
        else
          match (allOptions cfg).find? (fun o => decide (o.id ∈ forbiddenKeywords)) with
          | some _ => (.error (.yunohost "config_forbidden_keyword"), [.readConfigToml])
          | none => (.ok (some cfg), [.readConfigToml])

/-- ConfigPanel._get_config_panel, result only. -/
def getConfigPanel (raw : Option RawConfig) (key : String) :
    Except YErr (Option Cfg) :=
  (getConfigPanelT raw key).1

/-- ConfigPanel._get_default_values (config.py lines 396-401): option id to
declared default, for options that declare one. -/
def defaultValues (cfg : Cfg) : List (String × Val) :=
  (allOptions cfg).filterMap (fun o => o.default.map (fun d => (o.id, d)))

/-- Option types allowed to have no hydrated value (config.py line 345). -/
def allowedEmptyTypes : List String := ["alert", "display_text", "markdown", "file"]

/-- Recursion of the hydration check over the option list. -/
def hydrateGo (values : List (String × Val)) : List Opt → Except YErr Unit
  | [] => .ok ()
  | o :: rest =>
    if (dget values o.id).isNone then
      if o.otype ∈ allowedEmptyTypes ∨ o.bind = some "null" then
        hydrateGo values rest
      else
        .error (.yunohost "config_option_not_initialized")
    else hydrateGo values rest

/-- ConfigPanel._hydrate (config.py lines 340-362) as a consistency check:
an option with no value must be of an allowed-empty type or bound to
null, otherwise a fatal error is raised.  (Attaching current_value to the
option is observation-equivalent to looking the value up again, which the
get/set models below do.) -/
def hydrateCheck (cfg : Cfg) (values : List (String × Val)) : Except YErr Unit :=
  hydrateGo values (allOptions cfg)

/-- Display-only question types (DisplayTextQuestion and its registry
aliases). -/
def displayTypes : List String := ["display_text", "alert", "markdown"]

/-- The class-level default_value of the Question subclass registered for a
type tag: the string family and path and password declare the empty
string, boolean declares 0, every other class leaves it at None
(config.py lines 616, 702, 730, 755, 891). -/
def classDefault (t : String) : Option Val :=
  if t = "boolean" then some (.int 0)
  else if t ∈ ["string", "text", "select", "email", "url", "date", "time",
               "color", "password", "path"] then some (.str "")
  else none

/-- Question.__init__ turns an empty-string default into None
(config.py lines 483-484). -/
def fixDefault (d : Option Val) : Option Val :=
  if d = some (.str "") then none else d

/-- The default applied inside the ask loop: the instance default (for
boolean questions set to the no token at construction, config.py
lines 824-825), else the class default (config.py lines 522-527). -/
def effDefault (o : Opt) : Option Val :=
  let d := fixDefault o.default
  let d := if o.otype = "boolean" then some (d.getD (o.noTok.getD (.int 0))) else d
  match d with
  | some dv => some dv
  | none => classDefault o.otype

/-- The effective optional flag: DisplayTextQuestion.__init__ forces
optional to True (config.py line 948), every other class keeps the
option's flag. -/
def effOptional (o : Opt) : Bool :=
  if o.otype ∈ displayTypes then true else o.optional

/-- Type dispatch of the normalize step for the question types the claims
exercise: boolean questions run BooleanQuestion.normalize with their
configured tokens (config.py lines 783-818); the remaining modelled types
(string family, password, tags on scalar input, display texts) use the
shared base normalize, which strips strings.  Numeric, path, and domain
normalization are not reached by any claim. -/
def typeNormalize (o : Opt) (v : Val) : Except YErr Val :=
  if o.otype = "boolean" then
    booleanNormalize v (o.yesTok.getD (.int 1)) (o.noTok.getD (.int 0))
  else .ok (stripVal v)

/-- Question._prevalidate (config.py lines 549-567): a non-optional
question requires a non-empty value; a non-empty value must be among the
declared choices when any are declared.  (No modelled option declares a
pattern.) -/
def basePrevalidate (o : Opt) (v : Val) : Except YErr Unit :=
  if (v = .null ∨ v = .str "") ∧ ¬effOptional o then
    .error (.validation "app_argument_required")
  else if v ≠ .null ∧ v ≠ .str "" then
    if o.choices ≠ [] ∧ v ∉ o.choices then
      .error (.validation "app_argument_choice_invalid")
    else .ok ()
  else .ok ()

/-- The forbidden password characters, the braces (config.py line 703). -/
def passwordForbiddenChars : List Char := [Char.ofNat 123, Char.ofNat 125]

/-- PasswordQuestion._prevalidate (config.py lines 713-725): the base
checks, then the forbidden-character check.  The external strength check
assert_password_is_strong_enough is a collaborator outside this slice and
is modelled as accepting. -/
def passwordPrevalidate (o : Opt) (v : Val) : Except YErr Unit := do
  basePrevalidate o v
  if v ≠ .null ∧ v ≠ .str "" then
    match v with
    | .str s =>
      if s.toList.any (fun c => c ∈ passwordForbiddenChars) then
        .error (.validation "pattern_password_app")
      else .ok ()
    | _ => .ok ()
  else .ok ()

/-- Prevalidation dispatch for the modelled types. -/
def typePrevalidate (o : Opt) (v : Val) : Except YErr Unit :=
  if o.otype = "password" then passwordPrevalidate o v
  else basePrevalidate o v

/-- Question._post_parse_value restricted to scalar values: redaction
registration only mutates external logging contexts and returns the value
unchanged (config.py lines 590-611); the tags re-join and the file
materialization concern list values and external I/O that no claim
reaches. -/
def postParse (o : Opt) (v : Val) : Val :=
  let _ := o.redact
  v

/-- The composed normalize-and-prevalidate step executed inside the try of
the ask loop (config.py lines 529-532). -/
def questionValidate (o : Opt) (v : Val) : Except YErr Val := do
  let v ← typeNormalize o v
  typePrevalidate o v
  pure v

/-- The prompting step at the top of one ask-loop iteration (config.py
lines 514-520): in an interactive CLI, a read-only question only displays
its text, and a question with no value yet consumes the next prompt
input. -/
def askStep (interactive readonly : Bool) (v : Val) (prompts : List Val) :
    Val × List Val :=
  if interactive ∧ ¬readonly ∧ v = .null then
    (prompts.headD .null, prompts.drop 1)
  else (v, prompts)

/-- The default application inside one ask-loop iteration (config.py
lines 522-527), with d the effective default of the question. -/
def applyDefault (d : Option Val) (v : Val) : Val :=
  match d with
  | some dv => if v = .null ∨ v = .str "" then dv else v
  | none => v

/-- Question.ask_if_needed (config.py lines 512-543): up to fuel attempts
(the source enters with 5).  Each attempt prompts when interactive and
unanswered, applies the effective default to an empty value, then
normalizes and prevalidates.  A validation failure retries with a cleared
value while attempts remain and the context is interactive, otherwise it
propagates.  Returns the outcome and the number of attempts consumed. -/
def askIfNeeded (interactive readonly : Bool) (d : Option Val)
    (validate : Val → Except YErr Val) :
    Nat → Val → List Val → Except YErr Val × Nat
  | 0, _, _ => (.error (.exception "loop_exhausted"), 0)
  | fuel+1, v, prompts =>
    let p := askStep interactive readonly v prompts
    match validate (applyDefault d p.1) with
    | .ok v => (.ok v, 1)
    | .error e =>
      if 0 < fuel ∧ interactive then
        ((askIfNeeded interactive readonly d validate fuel .null p.2).1,
         (askIfNeeded interactive readonly d validate fuel .null p.2).2 + 1)
      else (.error e, 1)

/-- One question of ask_questions_and_parse_answers in the non-interactive
(API) context (config.py lines 1072-1078): instantiate the Question
subclass with the prefilled value, then run ask_if_needed.
PasswordQuestion.__init__ rejects a non-empty declared default before the
loop runs (config.py lines 705-711).  On success the post-parse step is
applied (config.py line 545). -/
def resolveQuestion (o : Opt) (prefilled : Option Val) : Except YErr Val :=
  if o.otype = "password" ∧ fixDefault o.default ≠ none then
    .error (.validation "app_argument_password_no_default")
  else
    match (askIfNeeded false (decide (o.otype ∈ displayTypes)) (effDefault o)
        (questionValidate o) 5 (prefilled.getD .null) []).1 with
    | .ok v => .ok (postParse o v)
    | .error e => .error e

/-- Resolution of a list of questions in declared order; the first failure
propagates, null answers are dropped from the collected values
(config.py lines 386-392). -/
def askGo (args : List (String × Val)) : List Opt → Except YErr (List (String × Val))
  | [] => .ok []
  | o :: rest => do
    let v ← resolveQuestion o (dget args o.id)
    let tail ← askGo args rest
    pure (if v = .null then tail else (o.id, v) :: tail)

/-- ConfigPanel._ask in the non-interactive context: every option in scope
is resolved against the prefilled answers, accumulating the non-null
values (config.py lines 364-394; header display is CLI-only). -/
def askAll (cfg : Cfg) (args : List (String × Val)) :
    Except YErr (List (String × Val)) :=
  askGo args (allOptions cfg)

/-- Join a split query-string value back with equal signs (Python keeps
everything after the first separator). -/
def joinEqChars : List (List Char) → List Char
  | [] => []
  | [x] => x
  | x :: xs => x ++ '=' :: joinEqChars xs

/-- Accumulate one query-string pair: repeated keys have their values
joined with commas, as the comprehension over parse_qs output does
(config.py lines 134-135). -/
def addQsPair (acc : List (String × Val)) (k v : String) : List (String × Val) :=
  match dget acc k with
  | some _ =>
    acc.map (fun kv =>
      if kv.1 = k then
        (kv.1, match kv.2 with
               | .str s => .str (s ++ "," ++ v)
               | w => w)
      else kv)
  | none => acc ++ [(k, .str v)]

/-- urllib.parse.parse_qs with keep_blank_values followed by the
comma-join comprehension (config.py lines 134-135): chunks split on the
ampersand, a chunk without an equal sign keeps a blank value. -/
def parseQs (s : String) : List (String × Val) :=
  ((splitCharAux '&' s.toList).filter (fun c => c ≠ [])).foldl
    (fun acc chunk =>
      match splitCharAux '=' chunk with
      | [] => acc
      | k :: rest => addQsPair acc (String.mk k) (String.mk (joinEqChars rest)))
    []

/-- ConfigPanel._reload_services (config.py lines 434-449): the union of
the services declared on panels and sections in scope, deduplicated, with
nginx sorted last.  (Python iterates a set, whose order is unspecified;
first-occurrence order stands in for it.  Option nodes carry no services
property.) -/
def servicesOf (cfg : Cfg) : List String :=
  let all := ((cfg.panels.map
    (fun p => p.services ++ (p.sections.map Sec.services).flatten)).flatten).eraseDups
  all.filter (fun s => s ≠ "nginx") ++ all.filter (fun s => s = "nginx")

/-- The values written by ConfigPanel._apply (config.py lines 418-432):
current values overridden by the newly resolved ones; diff save mode
drops entries equal to the option's declared default (absent default
compares as None). -/
def valuesToSave (saveMode : String) (cfg : Cfg)
    (values newValues : List (String × Val)) : List (String × Val) :=
  let merged := dmerge values newValues
  if saveMode = "diff" then
    merged.filter (fun kv => (dget (defaultValues cfg) kv.1).getD .null ≠ kv.2)
  else merged

/-- Outcome of the externally effectful body of ConfigPanel._apply (the
mkdir and YAML write): either the write succeeds, or it raises.  All
three except clauses of set re-raise the original error unchanged after
logging (config.py lines 152-168), so one failure constructor carrying
the error suffices. -/
inductive ApplyOutcome where
  | success : ApplyOutcome
  | fail (e : YErr) : ApplyOutcome
deriving DecidableEq, Repr

/-- Input of one ConfigPanel.set invocation: the schema description file
content (None when absent), the call arguments, the persisted settings
file content (None when absent), whether an operation logger was passed,
the save mode of the panel subclass, the process-wide upload-dir registry
at apply time, and the outcome of the external write. -/
structure SetInput where
  raw : Option RawConfig := none
  key : Option String := none
  value : Option Val := none
  args : Option String := none
  argsFile : Option (List (String × Val)) := none
  settingsFile : Option (List (String × Val)) := none
  opLogger : Bool := false
  saveMode : String := "full"
  uploadDirs : List String := []
  applyOutcome : ApplyOutcome := .success
deriving DecidableEq, Repr

/-- State reached when set arrives at its try block: the loaded scoped
tree, the hydrated current values, and the newly resolved values. -/
structure PreState where
  cfg : Cfg
  values : List (String × Val)
  newValues : List (String × Val)
deriving DecidableEq, Repr

/-- Result of one ConfigPanel.set invocation: the Python outcome, the
emitted event trace, and the final settings-file content. -/
structure SetResult where
  result : Except YErr Unit
  trace : List Event
  persisted : Option (List (String × Val))
deriving DecidableEq, Repr

/-- ConfigPanel.set up to the try block (config.py lines 112-150), in
source order: load the scoped config (reading the description file);
fail when no panel exists; reject value combined with args or args_file;
reject value with a filter key not addressing exactly one option; build
the prefilled answers from args, args_file, or the single value; read the
persisted settings and inject defaults; hydrate; resolve the answers;
start the operation logger when one was passed. -/
def setPre (inp : SetInput) : Except YErr PreState × List Event :=
  let filterKey := (inp.key).getD ""
  match getConfigPanelT inp.raw filterKey with
  | (.error e, tr) => (.error e, tr)
  | (.ok none, tr) => (.error (.validation "config_no_panel"), tr)
  | (.ok (some cfg), tr) =>
    if (inp.args.isSome ∨ inp.argsFile.isSome) ∧ inp.value.isSome then
      (.error (.validation "value_and_args_exclusive"), tr)
    else if countDots filterKey ≠ 2 ∧ inp.value.isSome then
      (.error (.validation "config_cant_set_value_on_section"), tr)
    else
      let argsMap : List (String × Val) :=
        match inp.value with
        | some v => [(lastSeg filterKey, v)]
        | none => dmerge ((inp.argsFile).getD []) (parseQs ((inp.args).getD ""))
      let tr := tr ++ (if inp.settingsFile.isSome then [Event.readSettings] else [])
      let values := dmerge (defaultValues cfg) ((inp.settingsFile).getD [])
      match hydrateCheck cfg values with
      | .error e => (.error e, tr)
      | .ok _ =>
        match askAll cfg argsMap with
        | .error e => (.error e, tr)
        | .ok newValues =>
          let tr := tr ++ (if inp.opLogger then [Event.opLoggerStart] else [])
          (.ok ⟨cfg, values, newValues⟩, tr)

/-- The try/except/finally tail of ConfigPanel.set (config.py
lines 152-179): on a successful apply the settings are written, the
finally clause removes every recorded upload dir, the services reload,
and the operation logger's success method is called unconditionally -
an AttributeError when no logger was passed, after the write and the
reload already happened.  On an apply failure the original error
re-raises after the finally clause removed the upload dirs; no
finalization of the operation logger occurs on that path. -/
def setApplyPhase (inp : SetInput) (st : PreState) (tr : List Event) : SetResult :=
  match inp.applyOutcome with
  | .success =>
    let toSave := valuesToSave inp.saveMode st.cfg st.values st.newValues
    let tr := tr ++ [Event.writeSettings toSave, Event.cleanUploadDirs inp.uploadDirs,
                     Event.reloadServices (servicesOf st.cfg)]
    if inp.opLogger then
      ⟨.ok (), tr ++ [Event.opLoggerSuccess], some toSave⟩
    else
      ⟨.error .attributeError, tr, some toSave⟩
  | .fail e =>
    ⟨.error e, tr ++ [Event.cleanUploadDirs inp.uploadDirs], inp.settingsFile⟩

/-- ConfigPanel.set (config.py lines 112-179). -/
def ConfigPanel.set (inp : SetInput) : SetResult :=
  match setPre inp with
  | (.error e, tr) => ⟨.error e, tr, inp.settingsFile⟩
  | (.ok st, tr) => setApplyPhase inp st tr

/-- BooleanQuestion.humanize (config.py lines 759-781): normalize, then
render the yes token as yes, the no token as no, None as the empty
string, anything else as a choice error. -/
def booleanHumanize (v : Val) (yes no : Val) : Except YErr Val := do
  let nv ← booleanNormalize v yes no
  if nv = yes then pure (.str "yes")
  else if nv = no then pure (.str "no")
  else if nv = .null then pure (.str "")
  else .error (.validation "app_argument_choice_invalid")

/-- Humanize dispatch for the modelled types: boolean renders through its
tokens, tags returns scalar values unchanged, everything else is Python
str() (config.py lines 486-488, 668-672, 759-781). -/
def typeHumanize (o : Opt) (v : Val) : Except YErr Val :=
  if o.otype = "boolean" then
    booleanHumanize v (o.yesTok.getD (.int 1)) (o.noTok.getD (.int 0))
  else if o.otype = "tags" then .ok v
  else .ok (.str (pyStr v))

/-- Question classes that hide user input: only PasswordQuestion sets
hide_user_input_in_prompt (config.py lines 464, 700). -/
def hideUserInput (t : String) : Bool := t = "password"

/-- The value displayed for one option by the classic formatting path of
get (config.py lines 96-105): the humanized current value, replaced by
the fixed masking string for a type that hides user input. -/
def classicDisplayValue (o : Opt) (v : Val) : Except YErr Val := do
  let h ← typeHumanize o v
  pure (if hideUserInput o.otype then .str "**************" else h)

/-- Full classic addresses panel.section.option paired with the option
node, in iteration order. -/
def optionTriples (cfg : Cfg) : List (String × Opt) :=
  (cfg.panels.map (fun p =>
    (p.sections.map (fun s =>
      s.options.map (fun o => (p.id ++ "." ++ s.id ++ "." ++ o.id, o)))).flatten)).flatten

/-- The classic mapping built by get for every option in scope: address to
displayed value, absent when the option has no current value (config.py
lines 94-105; the locale ask text comes from an external collaborator and
is not part of the value model). -/
def classicMapGo (values : List (String × Val)) :
    List (String × Opt) → Except YErr (List (String × Option Val))
  | [] => .ok []
  | (k, o) :: rest => do
    let entry ← match dget values o.id with
      | none => pure none
      | some cv => do
        let d ← classicDisplayValue o cv
        pure (some d)
    let tail ← classicMapGo values rest
    pure ((k, entry) :: tail)

/-- Result shape of ConfigPanel.get: a bare value for a single-option
classic read, the classic mapping, the export mapping, or the whole
annotated tree in full mode. -/
inductive GetValue where
  | single (v : Val) : GetValue
  | mapping (m : List (String × Option Val)) : GetValue
  | exportMap (m : List (String × Val)) : GetValue
  | fullTree (cfg : Cfg) : GetValue
deriving DecidableEq, Repr

/-- Input of one ConfigPanel.get invocation. -/
structure GetInput where
  raw : Option RawConfig := none
  key : String := ""
  mode : String := "classic"
  settingsFile : Option (List (String × Val)) := none
deriving DecidableEq, Repr

/-- ConfigPanel.get (config.py lines 58-110): load the scoped config, fail
when no panel exists, read and hydrate the current values, then: a
3-segment filter key in classic mode returns the stored value of the
addressed option directly (config.py lines 72-74); otherwise export mode
maps ids to raw current values, full mode returns the tree, and classic
mode builds the address-to-displayed-value mapping. -/
def ConfigPanel.get (inp : GetInput) : Except YErr GetValue :=
  match getConfigPanel inp.raw inp.key with
  | .error e => .error e
  | .ok none => .error (.validation "config_no_panel")
  | .ok (some cfg) =>
    let values := dmerge (defaultValues cfg) ((inp.settingsFile).getD [])
    match hydrateCheck cfg values with
    | .error e => .error e
    | .ok _ =>
      if countDots inp.key = 2 ∧ inp.mode = "classic" then
        .ok (.single ((dget values (lastSeg inp.key)).getD .null))
      else if inp.mode = "export" then
        .ok (.exportMap ((allOptions cfg).map
          (fun o => (o.id, (dget values o.id).getD .null))))
      else if inp.mode = "full" then
        .ok (.fullTree cfg)
      else
        match classicMapGo values (optionTriples cfg) with
        | .error e => .error e
        | .ok m => .ok (.mapping m)

/-- Schema of the end-to-end scenario: one panel p1, one section s1, one
boolean option o1 with no declared default. -/
def rawBool : RawConfig :=
  { version := 1,
    panels := [{ id := "p1",
                 sections := [{ id := "s1",
                                options := [{ id := "o1", otype := "boolean" }] }] }] }

/-- The set call of the end-to-end scenario on an absent settings file. -/
def setBoolEmpty : SetInput :=
  { raw := some rawBool, key := some "p1.s1.o1", value := some (.str "yes"),
    opLogger := true }

/-- The set call of the end-to-end scenario with the option initialized to
the no value in the persisted settings. -/
def setBoolInit : SetInput :=
  { raw := some rawBool, key := some "p1.s1.o1", value := some (.str "yes"),
    settingsFile := some [("o1", .int 0)], opLogger := true }

/-- The subsequent classic get of the end-to-end scenario. -/
def getBoolAfter : GetInput :=
  { raw := some rawBool, key := "p1.s1.o1", settingsFile := some [("o1", .int 1)] }

/-- Schema with a declared version newer than the supported one. -/
def rawNewer : RawConfig :=
  { version := 2,
    panels := [{ id := "p1",
                 sections := [{ id := "s1",
                                options := [{ id := "o1", otype := "string" }] }] }] }

/-- Schema in which two distinct options in different sections share the
id dup. -/
def rawDup : RawConfig :=
  { version := 1,
    panels := [{ id := "p1",
                 sections := [{ id := "s1",
                                options := [{ id := "dup", otype := "string" }] },
                              { id := "s2",
                                options := [{ id := "dup", otype := "string" }] }] }] }

/-- Schema containing a password option that declares a default. -/
def rawPwDefault : RawConfig :=
  { version := 1,
    panels := [{ id := "p1",
                 sections := [{ id := "s1",
                                options := [{ id := "pw", otype := "password",
                                              default := some (.str "hunter2") }] }] }] }

/-- The set call on the password-with-default schema, supplying a value
for the password option. -/
def setPwDefault : SetInput :=
  { raw := some rawPwDefault, key := some "p1.s1.pw",
    value := some (.str "S3cret!"), opLogger := true }

/-- Schema with a single password option and no default. -/
def rawPw : RawConfig :=
  { version := 1,
    panels := [{ id := "p1",
                 sections := [{ id := "s1",
                                options := [{ id := "pw", otype := "password" }] }] }] }

/-- The set call of the end-to-end scenario with a failing apply step and
a nonempty upload-dir registry. -/
def setBoolApplyFail : SetInput :=
  { raw := some rawBool, key := some "p1.s1.o1", value := some (.str "yes"),
    settingsFile := some [("o1", .int 0)], opLogger := true,
    uploadDirs := ["/tmp/ynh_filequestion_x"],
    applyOutcome := .fail (.yunohost "apply_boom") }

/-- The set call with both a single value and an args query-string. -/
def setValueAndArgs : SetInput :=
  { raw := some rawBool, key := some "p1.s1.o1", value := some (.str "yes"),
    args := some "o1=no", settingsFile := some [("o1", .int 0)] }

end YnhConfig

namespace YnhConfig

example : booleanNormalize (.str "yes") (.int 1) (.int 0) = .ok (.int 1) := by decide
example : booleanNormalize (.str " ON ") (.int 1) (.int 0) = .ok (.int 1) := by decide
example : booleanNormalize (.str "off") (.int 1) (.int 0) = .ok (.int 0) := by decide
example : booleanNormalize (.str "none") (.int 1) (.int 0) = .ok .null := by decide
example : booleanNormalize (.str "maybe") (.int 1) (.int 0)
    = .error (.validation "app_argument_choice_invalid") := by decide
example : booleanNormalize (.str "enabled") (.str "Enabled") (.int 0)
    = .ok (.str "Enabled") := by decide

example :
    (ConfigPanel.set setBoolEmpty).result
      = .error (.yunohost "config_option_not_initialized") := by decide

example : (ConfigPanel.set setBoolEmpty).persisted = none := by decide

example : (ConfigPanel.set setBoolInit).result = .ok () := by decide

example : (ConfigPanel.set setBoolInit).persisted = some [("o1", .int 1)] := by decide

example : ConfigPanel.get getBoolAfter = .ok (.single (.int 1)) := by decide

example : (getConfigPanel (some rawNewer) "").isOk = true := by decide

example : (getConfigPanel (some rawDup) "").isOk = true := by decide

example : (getConfigPanel (some rawPwDefault) "").isOk = true := by decide

example :
    ConfigPanel.get { raw := some rawPw, key := "p1.s1.pw",
                      settingsFile := some [("pw", .str "s3cr3t")] }
      = .ok (.single (.str "s3cr3t")) := by decide

example :
    ConfigPanel.get { raw := some rawPw, key := "p1.s1",
                      settingsFile := some [("pw", .str "s3cr3t")] }
      = .ok (.mapping [("p1.s1.pw", some (.str "**************"))]) := by decide

/-- Membership in a conditional singleton list forces the element. -/
theorem mem_if_singleton {α : Type} (ev x : α) (c : Prop) [Decidable c]
    (h : ev ∈ (if c then [x] else ([] : List α))) : ev = x := by
  by_cases hc : c
  · rw [if_pos hc] at h
    simpa using h
  · rw [if_neg hc] at h
    simp at h

/-- The schema loader emits at most its single description-file read. -/
theorem getConfigPanelT_trace (raw : Option RawConfig) (key : String) :
    ∀ ev ∈ (getConfigPanelT raw key).2, ev = Event.readConfigToml := by
  intro ev hev
  unfold getConfigPanelT at hev
  by_cases h1 : (splitKey key).length > 3
  · simp [h1] at hev
  · cases raw with
    | none => simp [h1] at hev
    | some rc =>
      by_cases h2 : rc.version < configPanelVersionSupported
      · simp [h1, h2] at hev
        exact hev
      · by_cases h3 : (!structureOk (buildConfig rc (splitKey key))) = true
        · simp [h1, h2, h3] at hev
          exact hev
        · cases h4 : (allOptions (buildConfig rc (splitKey key))).find?
            (fun o => decide (o.id ∈ forbiddenKeywords)) with
          | some o =>
            simp [h1, h2, h3, h4] at hev
            exact hev
          | none =>
            simp [h1, h2, h3, h4] at hev
            exact hev

/-- Every event emitted before the try block of set is the description
read, the settings read, or the operation-logger start. -/
theorem setPre_trace_events (inp : SetInput) :
    ∀ ev ∈ (setPre inp).2,
      ev = Event.readConfigToml ∨ ev = Event.readSettings
        ∨ ev = Event.opLoggerStart := by
  intro ev hev
  unfold setPre at hev
  rcases hg : getConfigPanelT inp.raw (inp.key.getD "") with ⟨res, tr⟩
  simp only [hg] at hev
  have htr : ∀ e ∈ tr, e = Event.readConfigToml := by
    intro e he
    refine getConfigPanelT_trace inp.raw (inp.key.getD "") e ?_
    rw [hg]
    exact he
  cases res with
  | error e => exact Or.inl (htr ev hev)
  | ok oc =>
    cases oc with
    | none => exact Or.inl (htr ev hev)
    | some cfg =>
      dsimp only at hev
      by_cases hc1 : (inp.args.isSome ∨ inp.argsFile.isSome) ∧ inp.value.isSome
      · rw [if_pos hc1] at hev
        exact Or.inl (htr ev hev)
      · rw [if_neg hc1] at hev
        by_cases hc2 : countDots (inp.key.getD "") ≠ 2 ∧ inp.value.isSome
        · rw [if_pos hc2] at hev
          exact Or.inl (htr ev hev)
        · rw [if_neg hc2] at hev
          cases hh : hydrateCheck cfg
              (dmerge (defaultValues cfg) (inp.settingsFile.getD [])) with
          | error e =>
            rw [hh] at hev
            rcases List.mem_append.mp hev with h | h
            · exact Or.inl (htr ev h)
            · exact Or.inr (Or.inl (mem_if_singleton ev _ _ h))
          | ok u =>
            rw [hh] at hev
            cases ha : askAll cfg
                (match inp.value with
                 | some v => [(lastSeg (inp.key.getD ""), v)]
                 | none => dmerge (inp.argsFile.getD []) (parseQs (inp.args.getD ""))) with
            | error e =>
              rw [ha] at hev
              rcases List.mem_append.mp hev with h | h
              · exact Or.inl (htr ev h)
              · exact Or.inr (Or.inl (mem_if_singleton ev _ _ h))
            | ok newValues =>
              rw [ha] at hev
              rcases List.mem_append.mp hev with h | h
              · rcases List.mem_append.mp h with h | h
                · exact Or.inl (htr ev h)
                · exact Or.inr (Or.inl (mem_if_singleton ev _ _ h))
              · exact Or.inr (Or.inr (mem_if_singleton ev _ _ h))

/-- The two base answer word lists are disjoint. -/
theorem noAnswers_not_yesAnswers : ∀ x ∈ noAnswersBase, x ∉ yesAnswersBase := by
  decide

/-- C3 (counterexample): the non-empty input none, which lies in neither
answer set and matches neither default token, normalizes to None instead
of failing with a choice error. -/
theorem boolean_normalize_none_escapes :
    booleanNormalize (.str "none") (.int 1) (.int 0) = .ok .null
    ∧ "none" ≠ ""
    ∧ "none" ∉ yesAnswersBase ∧ "none" ∉ noAnswersBase
    ∧ "none" ≠ pyLower (pyStr (.int 1)) ∧ "none" ≠ pyLower (pyStr (.int 0)) := by
  decide

/-- C3 (amended): for every string input, BooleanQuestion.normalize maps
the yes word list and the lowered yes token to the yes value, the no word
list and the lowered no token to the no value, and fails with a choice
error on every other input whose stripped lowercase form is neither the
word none nor empty (those two normalize to None instead).  The
configured tokens must not collide with the opposite word list (the
source asserts this) and must be distinct after lowering. -/
theorem boolean_normalize_total (s : String) (yes no : Val)
    (hy : pyLower (pyStr yes) ∉ noAnswersBase)
    (hn : pyLower (pyStr no) ∉ yesAnswersBase)
    (hd : pyLower (pyStr yes) ≠ pyLower (pyStr no)) :
    (boolStrOf s ∈ yesAnswersBase ∨ boolStrOf s = pyLower (pyStr yes) →
        booleanNormalize (.str s) yes no = .ok yes)
    ∧ (boolStrOf s ∈ noAnswersBase ∨ boolStrOf s = pyLower (pyStr no) →
        booleanNormalize (.str s) yes no = .ok no)
    ∧ (boolStrOf s ∉ yesAnswersBase → boolStrOf s ≠ pyLower (pyStr yes) →
        boolStrOf s ∉ noAnswersBase → boolStrOf s ≠ pyLower (pyStr no) →
        boolStrOf s ≠ "none" → boolStrOf s ≠ "" →
        booleanNormalize (.str s) yes no
          = .error (.validation "app_argument_choice_invalid")) := by
  have hdisj := noAnswers_not_yesAnswers
  have hrw : booleanNormalize (.str s) yes no =
      (if boolStrOf s ∈ yesAnswersBase ++ [pyLower (pyStr yes)] then .ok yes
       else if boolStrOf s ∈ noAnswersBase ++ [pyLower (pyStr no)] then .ok no
       else if boolStrOf s = "none" ∨ boolStrOf s = "" then .ok .null
       else .error (.validation "app_argument_choice_invalid")) := by
    unfold booleanNormalize
    rw [if_neg hy, if_neg hn]
    rfl
  refine ⟨?_, ?_, ?_⟩
  · intro h
    rw [hrw, if_pos]
    rcases h with h | h
    · exact List.mem_append.mpr (Or.inl h)
    · exact List.mem_append.mpr (Or.inr (by simp [h]))
  · intro h
    have hnyes : boolStrOf s ∉ yesAnswersBase ++ [pyLower (pyStr yes)] := by
      intro hc
      rcases List.mem_append.mp hc with hc | hc
      · rcases h with h | h
        · exact hdisj _ h hc
        · rw [h] at hc
          exact hn hc
      · simp at hc
        rcases h with h | h
        · rw [hc] at h
          exact hy h
        · rw [hc] at h
          exact hd h
    rw [hrw, if_neg hnyes, if_pos]
    rcases h with h | h
    · exact List.mem_append.mpr (Or.inl h)
    · exact List.mem_append.mpr (Or.inr (by simp [h]))
  · intro h1 h2 h3 h4 h5 h6
    rw [hrw, if_neg, if_neg, if_neg]
    · rintro (hc | hc)
      · exact h5 hc
      · exact h6 hc
    · intro hc
      rcases List.mem_append.mp hc with hc | hc
      · exact h3 hc
      · simp at hc
        exact h4 hc
    · intro hc
      rcases List.mem_append.mp hc with hc | hc
      · exact h1 hc
      · simp at hc
        exact h2 hc

/-- C3 (witness): a rejected input under the default tokens, through the
totality theorem. -/
theorem boolean_normalize_total_witness :
    booleanNormalize (.str "maybe") (.int 1) (.int 0)
      = .error (.validation "app_argument_choice_invalid") :=
  (boolean_normalize_total "maybe" (.int 1) (.int 0) (by decide) (by decide)
    (by decide)).2.2 (by decide) (by decide) (by decide) (by decide) (by decide)
    (by decide)

/-- The ask loop consumes at most as many attempts as it has fuel. -/
theorem askIfNeeded_attempts_le (i r : Bool) (d : Option Val)
    (validate : Val → Except YErr Val) :
    ∀ fuel v prompts, (askIfNeeded i r d validate fuel v prompts).2 ≤ fuel := by
  intro fuel
  induction fuel with
  | zero =>
    intro v prompts
    simp [askIfNeeded]
  | succ n ih =>
    intro v prompts
    unfold askIfNeeded
    dsimp only
    cases h : validate (applyDefault d (askStep i r v prompts).1) with
    | ok w => simp [h]
    | error e =>
      dsimp only
      by_cases hc : 0 < n ∧ i = true
      · rw [if_pos hc]
        exact Nat.succ_le_succ (ih .null (askStep i r v prompts).2)
      · rw [if_neg hc]
        exact Nat.succ_le_succ (Nat.zero_le n)

/-- When validation fails on every value and the context is interactive,
the ask loop consumes all its fuel and ends in a validation failure. -/
theorem askIfNeeded_all_fail (r : Bool) (d : Option Val)
    (validate : Val → Except YErr Val)
    (hf : ∀ w, ∃ e, validate w = .error e) :
    ∀ fuel v prompts, 1 ≤ fuel →
      (askIfNeeded true r d validate fuel v prompts).2 = fuel
      ∧ ∃ e, (askIfNeeded true r d validate fuel v prompts).1 = .error e := by
  intro fuel
  induction fuel with
  | zero =>
    intro v prompts h
    exact absurd h (by decide)
  | succ n ih =>
    intro v prompts _
    obtain ⟨e, he⟩ := hf (applyDefault d (askStep true r v prompts).1)
    unfold askIfNeeded
    dsimp only
    rw [he]
    dsimp only
    by_cases hn0 : 0 < n
    · rw [if_pos (by simpa using hn0)]
      have hih := ih .null (askStep true r v prompts).2 hn0
      refine ⟨by rw [hih.1], hih.2⟩
    · have hn : n = 0 := by omega
      subst hn
      rw [if_neg (by simp)]
      exact ⟨rfl, e, rfl⟩

/-- C7: the resolution loop of Question.ask_if_needed makes at most 5
attempts; in a non-interactive context the first validation failure
propagates immediately (a single attempt); in an interactive context a
failed attempt retries with a cleared value, and when validation keeps
failing the loop stops after exactly 5 attempts with the validation error
propagating. -/
theorem ask_if_needed_bounded_retry (validate : Val → Except YErr Val)
    (interactive readonly : Bool) (d : Option Val) (v : Val)
    (prompts : List Val) :
    (askIfNeeded interactive readonly d validate 5 v prompts).2 ≤ 5
    ∧ (∀ e, validate (applyDefault d v) = .error e →
        askIfNeeded false readonly d validate 5 v prompts = (.error e, 1))
    ∧ ((∀ w, ∃ e, validate w = .error e) →
        (askIfNeeded true readonly d validate 5 v prompts).2 = 5
        ∧ ∃ e, (askIfNeeded true readonly d validate 5 v prompts).1 = .error e) := by
  refine ⟨askIfNeeded_attempts_le interactive readonly d validate 5 v prompts,
          ?_, ?_⟩
  · intro e he
    unfold askIfNeeded
    dsimp only
    have hstep : askStep false readonly v prompts = (v, prompts) := by
      simp [askStep]
    rw [hstep]
    dsimp only
    rw [he]
    dsimp only
    rw [if_neg (by simp)]
  · intro hf
    exact askIfNeeded_all_fail readonly d validate hf 5 v prompts (by decide)

/-- C7 (witness): the bounded-retry theorem applied to a validator that
always fails, in an interactive context. -/
theorem ask_if_needed_bounded_retry_witness :
    (askIfNeeded true false none
        (fun _ => .error (.validation "boom")) 5 .null []).2 = 5
    ∧ ∃ e, (askIfNeeded true false none
        (fun _ => .error (.validation "boom")) 5 .null []).1 = .error e :=
  (ask_if_needed_bounded_retry (fun _ => .error (.validation "boom"))
    true false none .null []).2.2 (fun _ => ⟨.validation "boom", rfl⟩)

/-- C4 (counterexample): a schema declaring version 2, newer than the
supported version 1, loads without any error; the claim that newer
versions are rejected fails. -/
theorem config_version_newer_accepted :
    configPanelVersionSupported < rawNewer.version
    ∧ getConfigPanel (some rawNewer) ""
        = .ok (some (buildConfig rawNewer [])) := by
  decide

/-- C4 (amended): for every raw description and filter key of at most 3
segments, the loader fails with the version-mismatch error exactly when
the declared version is older than the supported version; a version at
least the supported one never produces that error. -/
theorem config_version_check (raw : RawConfig) (key : String)
    (hdepth : (splitKey key).length ≤ 3) :
    (raw.version < configPanelVersionSupported →
      getConfigPanel (some raw) key
        = .error (.yunohost "config_version_not_supported"))
    ∧ (configPanelVersionSupported ≤ raw.version →
      getConfigPanel (some raw) key
        ≠ .error (.yunohost "config_version_not_supported")) := by
  have hd : ¬((splitKey key).length > 3) := by omega
  constructor
  · intro hv
    unfold getConfigPanel getConfigPanelT
    rw [if_neg hd]
    dsimp only
    rw [if_pos hv]
  · intro hv heq
    unfold getConfigPanel getConfigPanelT at heq
    rw [if_neg hd] at heq
    dsimp only at heq
    rw [if_neg (not_lt.mpr hv)] at heq
    by_cases hs : (!structureOk (buildConfig raw (splitKey key))) = true
    · rw [if_pos hs] at heq
      simp at heq
    · rw [if_neg hs] at heq
      cases hfind : (allOptions (buildConfig raw (splitKey key))).find?
          (fun o => decide (o.id ∈ forbiddenKeywords)) with
      | some o =>
        rw [hfind] at heq
        dsimp only at heq
        have := Except.error.inj heq
        simp at this
      | none =>
        rw [hfind] at heq
        simp at heq

/-- C4 (witness): version checking through the theorem at a too-old and an
accepted concrete schema. -/
theorem config_version_check_witness :
    getConfigPanel (some { rawNewer with version := 0 }) ""
      = .error (.yunohost "config_version_not_supported")
    ∧ getConfigPanel (some rawNewer) ""
      ≠ .error (.yunohost "config_version_not_supported") :=
  ⟨(config_version_check { rawNewer with version := 0 } ""
      (by decide)).1 (by decide),
   (config_version_check rawNewer "" (by decide)).2 (by decide)⟩

/-- C5 (counterexample): a schema in which two distinct options in
different sections share the id dup loads without any error, so duplicate
ids are not a load-time failure. -/
theorem config_duplicate_ids_accepted :
    getConfigPanel (some rawDup) "" = .ok (some (buildConfig rawDup []))
    ∧ ((allOptions (buildConfig rawDup [])).filter
        (fun o => decide (o.id = "dup"))).length = 2 := by
  decide

/-- C5 (amended): schema loading fails with the forbidden-keyword error
whenever some option id of the filtered tree collides with the reserved
keyword list (given the version and reachability checks pass); duplicate
option ids are not detected. -/
theorem config_forbidden_keyword_check (raw : RawConfig) (key : String)
    (hdepth : (splitKey key).length ≤ 3)
    (hv : configPanelVersionSupported ≤ raw.version)
    (hstruct : structureOk (buildConfig raw (splitKey key)) = true)
    (o : Opt) (ho : o ∈ allOptions (buildConfig raw (splitKey key)))
    (hf : o.id ∈ forbiddenKeywords) :
    getConfigPanel (some raw) key
      = .error (.yunohost "config_forbidden_keyword") := by
  have hd : ¬((splitKey key).length > 3) := by omega
  unfold getConfigPanel getConfigPanelT
  rw [if_neg hd]
  dsimp only
  rw [if_neg (not_lt.mpr hv)]
  rw [if_neg (by simp [hstruct])]
  cases hfind : (allOptions (buildConfig raw (splitKey key))).find?
      (fun o => decide (o.id ∈ forbiddenKeywords)) with
  | some o2 => rfl
  | none =>
    exfalso
    rw [List.find?_eq_none] at hfind
    exact absurd (of_decide_eq_true (by exact_mod_cast decide_eq_true hf))
      (by simpa using hfind o ho)

/-- C5 (witness): the forbidden-keyword rejection through the theorem at a
concrete schema using the reserved id old. -/
theorem config_forbidden_keyword_check_witness :
    getConfigPanel
      (some { version := 1,
              panels := [{ id := "p1",
                           sections := [{ id := "s1",
                                          options := [{ id := "old",
                                                        otype := "string" }] }] }] })
      "" = .error (.yunohost "config_forbidden_keyword") :=
  config_forbidden_keyword_check _ "" (by decide) (by decide) (by decide)
    { id := "old", otype := "string" } (by decide) (by decide)

/-- C8 (counterexample): a schema containing a password option that
declares a default loads without any error, so the rejection does not
happen at schema-load time. -/
theorem password_default_loads_ok :
    getConfigPanel (some rawPwDefault) ""
      = .ok (some (buildConfig rawPwDefault []))
    ∧ (ConfigPanel.set setPwDefault).result
      = .error (.validation "app_argument_password_no_default") := by
  decide

/-- C8 (amended): a password option with a non-empty declared default is
rejected with the password-no-default error when its Question is
instantiated during answer resolution (the ask step of set, after load
and hydration), for every prefilled answer. -/
theorem password_default_rejected_at_ask (o : Opt) (pre : Option Val)
    (ht : o.otype = "password") (hd : fixDefault o.default ≠ none) :
    resolveQuestion o pre
      = .error (.validation "app_argument_password_no_default") := by
  unfold resolveQuestion
  rw [if_pos ⟨ht, hd⟩]

/-- C8 (witness): the ask-time rejection through the theorem at the
concrete password option of the counterexample schema. -/
theorem password_default_rejected_at_ask_witness :
    resolveQuestion { id := "pw", otype := "password",
                      default := some (.str "hunter2"), optional := true }
        (some (.str "S3cret!"))
      = .error (.validation "app_argument_password_no_default") :=
  password_default_rejected_at_ask _ _ (by decide) (by decide)

/-- C1 (counterexample): on the claimed scenario - empty persisted
settings, boolean option with no declared default - set does not complete:
hydration fails with the never-initialized consistency error, nothing is
persisted, and the only event is the description read. -/
theorem set_boolean_uninitialized_fails :
    (ConfigPanel.set setBoolEmpty).result
      = .error (.yunohost "config_option_not_initialized")
    ∧ (ConfigPanel.set setBoolEmpty).persisted = none
    ∧ (ConfigPanel.set setBoolEmpty).trace = [Event.readConfigToml] := by
  decide

/-- C1 (amended): with the option initialized in the persisted settings
(here to the no value 0, as hydration requires), the end-to-end scenario
holds: set with value yes succeeds, persists the mapping o1 to 1, and the
subsequent classic get of p1.s1.o1 returns 1. -/
theorem set_boolean_end_to_end :
    (ConfigPanel.set setBoolInit).result = .ok ()
    ∧ (ConfigPanel.set setBoolInit).persisted = some [("o1", .int 1)]
    ∧ ConfigPanel.get getBoolAfter = .ok (.single (.int 1)) := by
  decide

/-- C2 (counterexample): when the apply step fails, the started
operation-logging context is never finalized - neither its success nor
any failure finalization appears in the trace - even though the upload
dirs are cleaned; the claim that the operation context is finalized on
every error is false. -/
theorem set_apply_failure_logger_not_finalized :
    (ConfigPanel.set setBoolApplyFail).result = .error (.yunohost "apply_boom")
    ∧ Event.opLoggerStart ∈ (ConfigPanel.set setBoolApplyFail).trace
    ∧ Event.cleanUploadDirs ["/tmp/ynh_filequestion_x"]
        ∈ (ConfigPanel.set setBoolApplyFail).trace
    ∧ Event.opLoggerSuccess ∉ (ConfigPanel.set setBoolApplyFail).trace
    ∧ Event.opLoggerError ∉ (ConfigPanel.set setBoolApplyFail).trace := by
  decide

/-- C2 (amended): for every error raised during the apply step, the error
propagates to the caller unchanged, the cleanup of every recorded
temporary upload directory runs before it propagates, and the persisted
settings are untouched; the operation-logging context, however, is not
finalized on the failure path (no success or error finalization event is
ever emitted). -/
theorem set_apply_failure_cleanup (inp : SetInput) (st : PreState)
    (tr : List Event) (e : YErr)
    (hpre : setPre inp = (.ok st, tr))
    (hout : inp.applyOutcome = .fail e) :
    (ConfigPanel.set inp).result = .error e
    ∧ Event.cleanUploadDirs inp.uploadDirs ∈ (ConfigPanel.set inp).trace
    ∧ Event.opLoggerSuccess ∉ (ConfigPanel.set inp).trace
    ∧ Event.opLoggerError ∉ (ConfigPanel.set inp).trace
    ∧ (ConfigPanel.set inp).persisted = inp.settingsFile := by
  have hset : ConfigPanel.set inp
      = ⟨.error e, tr ++ [Event.cleanUploadDirs inp.uploadDirs],
         inp.settingsFile⟩ := by
    unfold ConfigPanel.set
    rw [hpre]
    unfold setApplyPhase
    rw [hout]
  have htr : ∀ ev ∈ tr, ev = Event.readConfigToml ∨ ev = Event.readSettings
      ∨ ev = Event.opLoggerStart := by
    intro ev hev
    refine setPre_trace_events inp ev ?_
    rw [hpre]
    exact hev
  rw [hset]
  refine ⟨rfl, List.mem_append.mpr (Or.inr (by simp)), ?_, ?_, rfl⟩
  · intro hmem
    rcases List.mem_append.mp hmem with h | h
    · rcases htr _ h with h1 | h1 | h1 <;> simp at h1
    · simp at h
  · intro hmem
    rcases List.mem_append.mp hmem with h | h
    · rcases htr _ h with h1 | h1 | h1 <;> simp at h1
    · simp at h

/-- C2 (witness): the cleanup-on-failure theorem at the concrete failing
apply scenario. -/
theorem set_apply_failure_cleanup_witness :
    (ConfigPanel.set setBoolApplyFail).result = .error (.yunohost "apply_boom")
    ∧ Event.cleanUploadDirs ["/tmp/ynh_filequestion_x"]
        ∈ (ConfigPanel.set setBoolApplyFail).trace
    ∧ Event.opLoggerSuccess ∉ (ConfigPanel.set setBoolApplyFail).trace
    ∧ Event.opLoggerError ∉ (ConfigPanel.set setBoolApplyFail).trace
    ∧ (ConfigPanel.set setBoolApplyFail).persisted = some [("o1", .int 0)] :=
  set_apply_failure_cleanup setBoolApplyFail
    ⟨buildConfig rawBool ["p1", "s1", "o1"], [("o1", .int 0)], [("o1", .int 1)]⟩
    [Event.readConfigToml, Event.readSettings, Event.opLoggerStart]
    (.yunohost "apply_boom") (by decide) (by decide)

/-- C6 (counterexample): with both value and args supplied, the validation
error is raised, but only after the description file was already read -
the trace already contains that I/O - so the claim that the error
precedes any I/O is false.  (The persisted settings are still untouched.) -/
theorem set_value_and_args_reads_config_first :
    (ConfigPanel.set setValueAndArgs).result
      = .error (.validation "value_and_args_exclusive")
    ∧ Event.readConfigToml ∈ (ConfigPanel.set setValueAndArgs).trace := by
  decide

/-- C6 (amended): whenever value is combined with args or args_file, or
value is supplied under a filter key not addressing exactly one option, a
validation error is raised before the persisted settings are read or
written (the schema description file, however, has already been read at
that point). -/
theorem set_precondition_before_settings_io (inp : SetInput) (cfg : Cfg)
    (hload : getConfigPanel inp.raw (inp.key.getD "") = .ok (some cfg))
    (hval : inp.value.isSome)
    (hbad : inp.args.isSome ∨ inp.argsFile.isSome
      ∨ countDots (inp.key.getD "") ≠ 2) :
    (∃ m, (ConfigPanel.set inp).result = .error (.validation m))
    ∧ Event.readSettings ∉ (ConfigPanel.set inp).trace
    ∧ (∀ vs, Event.writeSettings vs ∉ (ConfigPanel.set inp).trace)
    ∧ (ConfigPanel.set inp).persisted = inp.settingsFile := by
  rcases hg : getConfigPanelT inp.raw (inp.key.getD "") with ⟨r, tr⟩
  have hr : r = .ok (some cfg) := by
    unfold getConfigPanel at hload
    rw [hg] at hload
    exact hload
  subst hr
  have htr : ∀ ev ∈ tr, ev = Event.readConfigToml := by
    intro ev hev
    refine getConfigPanelT_trace inp.raw (inp.key.getD "") ev ?_
    rw [hg]
    exact hev
  have hmain : ∃ m, setPre inp = (.error (.validation m), tr) := by
    unfold setPre
    simp only [hg]
    by_cases hc1 : (inp.args.isSome ∨ inp.argsFile.isSome) ∧ inp.value.isSome
    · exact ⟨"value_and_args_exclusive", by rw [if_pos hc1]⟩
    · have hdots : countDots (inp.key.getD "") ≠ 2 := by
        rcases hbad with h | h | h
        · exact absurd ⟨Or.inl h, hval⟩ hc1
        · exact absurd ⟨Or.inr h, hval⟩ hc1
        · exact h
      exact ⟨"config_cant_set_value_on_section",
        by rw [if_neg hc1, if_pos ⟨hdots, hval⟩]⟩
  obtain ⟨m, hpre⟩ := hmain
  have hset : ConfigPanel.set inp
      = ⟨.error (.validation m), tr, inp.settingsFile⟩ := by
    unfold ConfigPanel.set
    rw [hpre]
  rw [hset]
  refine ⟨⟨m, rfl⟩, ?_, ?_, rfl⟩
  · intro h
    have := htr _ h
    simp at this
  · intro vs h
    have := htr _ h
    simp at this

/-- C6 (witness): the precondition theorem at the concrete call supplying
both value and args. -/
theorem set_precondition_before_settings_io_witness :
    (∃ m, (ConfigPanel.set setValueAndArgs).result = .error (.validation m))
    ∧ Event.readSettings ∉ (ConfigPanel.set setValueAndArgs).trace
    ∧ (∀ vs, Event.writeSettings vs ∉ (ConfigPanel.set setValueAndArgs).trace)
    ∧ (ConfigPanel.set setValueAndArgs).persisted = some [("o1", .int 0)] :=
  set_precondition_before_settings_io setValueAndArgs
    (buildConfig rawBool ["p1", "s1", "o1"]) (by decide) (by decide)
    (Or.inl (by decide))

/-- C9: a classic-mode get whose 3-segment filter key addresses an option
returns the raw stored value directly - no humanization and no masking -
while the classic mapping-formatting path replaces every password-typed
option's value with the fixed masking string; so a single-option classic
read of a secret exposes it. -/
theorem get_classic_single_exposes_secret (raw : RawConfig) (key : String)
    (cfg : Cfg) (settings : List (String × Val)) (v : Val)
    (hseg : countDots key = 2)
    (hload : getConfigPanel (some raw) key = .ok (some cfg))
    (hhyd : hydrateCheck cfg (dmerge (defaultValues cfg) settings) = .ok ())
    (hval : dget (dmerge (defaultValues cfg) settings) (lastSeg key) = some v) :
    ConfigPanel.get { raw := some raw, key := key, mode := "classic",
                      settingsFile := some settings }
      = .ok (.single v)
    ∧ ∀ (o : Opt) (w : Val), o.otype = "password" →
        classicDisplayValue o w = .ok (.str "**************") := by
  constructor
  · unfold ConfigPanel.get
    simp only [hload, Option.getD_some]
    rw [hhyd]
    rw [if_pos ⟨hseg, trivial⟩]
    rw [hval]
    rfl
  · intro o w ho
    unfold classicDisplayValue typeHumanize hideUserInput
    rw [ho]
    simp

/-- C9 (witness): the secret-exposure theorem at the concrete
single-password schema: the single read returns the raw secret while the
mapping path masks it. -/
theorem get_classic_single_exposes_secret_witness :
    ConfigPanel.get { raw := some rawPw, key := "p1.s1.pw",
                      mode := "classic",
                      settingsFile := some [("pw", .str "s3cr3t")] }
      = .ok (.single (.str "s3cr3t"))
    ∧ ∀ (o : Opt) (w : Val), o.otype = "password" →
        classicDisplayValue o w = .ok (.str "**************") :=
  get_classic_single_exposes_secret rawPw "p1.s1.pw"
    (buildConfig rawPw ["p1", "s1", "pw"]) [("pw", .str "s3cr3t")]
    (.str "s3cr3t") (by decide) (by decide) (by decide) (by decide)

/-- C10: whenever set reaches its try block, the apply step succeeds, and
no operation logger was passed, the final unguarded success call on None
raises an attribute error - after the new values were already written and
the services already reloaded. -/
theorem set_requires_operation_logger (inp : SetInput) (st : PreState)
    (tr : List Event)
    (hpre : setPre inp = (.ok st, tr))
    (hsucc : inp.applyOutcome = .success)
    (hlog : inp.opLogger = false) :
    (ConfigPanel.set inp).result = .error .attributeError
    ∧ (ConfigPanel.set inp).persisted
        = some (valuesToSave inp.saveMode st.cfg st.values st.newValues)
    ∧ Event.writeSettings (valuesToSave inp.saveMode st.cfg st.values st.newValues)
        ∈ (ConfigPanel.set inp).trace
    ∧ Event.reloadServices (servicesOf st.cfg) ∈ (ConfigPanel.set inp).trace := by
  have hset : ConfigPanel.set inp
      = ⟨.error .attributeError,
         tr ++ [Event.writeSettings
                  (valuesToSave inp.saveMode st.cfg st.values st.newValues),
                Event.cleanUploadDirs inp.uploadDirs,
                Event.reloadServices (servicesOf st.cfg)],
         some (valuesToSave inp.saveMode st.cfg st.values st.newValues)⟩ := by
    unfold ConfigPanel.set
    rw [hpre]
    unfold setApplyPhase
    rw [hsucc]
    dsimp only
    rw [hlog]
    rfl
  rw [hset]
  refine ⟨rfl, rfl, ?_, ?_⟩
  · exact List.mem_append.mpr (Or.inr (by simp))
  · exact List.mem_append.mpr (Or.inr (by simp))

/-- C10 (witness): the unguarded-success theorem at the concrete scenario
with no operation logger: the write and the reload happened, then the
attribute error surfaced. -/
theorem set_requires_operation_logger_witness :
    (ConfigPanel.set { setBoolInit with opLogger := false }).result
      = .error .attributeError
    ∧ (ConfigPanel.set { setBoolInit with opLogger := false }).persisted
      = some (valuesToSave "full" (buildConfig rawBool ["p1", "s1", "o1"])
          [("o1", .int 0)] [("o1", .int 1)])
    ∧ Event.writeSettings (valuesToSave "full"
          (buildConfig rawBool ["p1", "s1", "o1"])
          [("o1", .int 0)] [("o1", .int 1)])
        ∈ (ConfigPanel.set { setBoolInit with opLogger := false }).trace
    ∧ Event.reloadServices
          (servicesOf (buildConfig rawBool ["p1", "s1", "o1"]))
        ∈ (ConfigPanel.set { setBoolInit with opLogger := false }).trace :=
  set_requires_operation_logger { setBoolInit with opLogger := false }
    ⟨buildConfig rawBool ["p1", "s1", "o1"], [("o1", .int 0)], [("o1", .int 1)]⟩
    [Event.readConfigToml, Event.readSettings] (by decide) (by decide)
    (by decide)

end YnhConfig
